import Mathlib

/-!
Shallow embedding of the nlsh remote-execution system, checked against its
natural-language specification.

The embedding covers:
* `Crypto`: Ed25519 message signing/verification from
  `packages/shared/asymmetric_crypto.py` (canonical bytes, `sign_message`,
  `verify_signature`, `verify_message`, `re_sign_message`).  The Ed25519
  primitive itself is idealised as a deterministic, unforgeable scheme: a
  signature records the signing key and the exact bytes signed, and raw
  verification succeeds exactly when the signature was produced over the given
  bytes by the private key matching the verify key.  Everything layered on top
  of the primitive follows the Python source line by line.
* `ScriptExec`: the remote script executor from
  `packages/nlsh_remote/script_executor.py` (per-script state, sequence
  counters, the streaming loop, timeout kill sequence, `cancel_script`).
* `Subagent`: the client-side script executor from
  `packages/nlsh/subagents/executor.py` (the `[Step N/M]` progress markers and
  the `get_progress` query).
* `Conn`: the correlation-id bookkeeping of
  `packages/nlsh/remote_client.py` (`_send_and_wait` id generation and the
  receive loop's no-id fallback).
-/

namespace Crypto

/-- Maximum age of a message in seconds (`MAX_MESSAGE_AGE = 300`). -/
def MAX_MESSAGE_AGE : Nat := 300

/-- An Ed25519 signing (private) key, identified by its seed. -/
structure SigningKey where
  seed : Nat
deriving DecidableEq, Repr

/-- An Ed25519 verify (public) key. -/
structure VerifyKey where
  id : Nat
deriving DecidableEq, Repr

/-- Model of `SigningKey.verify_key`: the public key derived from a private key
(`private_key.verify_key` in PyNaCl).  Key derivation is injective. -/
def SigningKey.verify_key (k : SigningKey) : VerifyKey := ⟨k.seed⟩

/-- An Ed25519 signature, idealised: it records which key signed and the exact
message bytes that were signed.  Deterministic Ed25519 signing makes the
signature a function of (key, message); unforgeability makes raw verification
succeed only on this exact pair. -/
structure Ed25519Sig where
  signer : Nat
  message : List Nat
deriving DecidableEq, Repr

/-- Raw PyNaCl verification `public_key.verify(message, signature)`:
succeeds exactly when `signature` was produced over `message` by the private
key whose verify key is `pk`. -/
def nacl_verify (pk : VerifyKey) (message : List Nat) (sig : Ed25519Sig) : Bool :=
  sig.signer == pk.id && sig.message == message

/-- Byte encoding of an integer's decimal string (used for the timestamp
inside the canonical message, `f"{timestamp}"`). -/
def intBytes (n : Int) : List Nat :=
  (toString n).toList.map Char.toNat

/-- Model of `create_canonical_message`: the canonical bytes
`f"{msg_type}:{timestamp}:{nonce}:{payload_str}".encode('utf-8')`.
`msg_type` and `nonce` are given as their UTF-8 bytes and `payload` as the
bytes of its deterministic JSON serialization
(`json.dumps(payload, sort_keys=True, separators=(',', ':'))`);
`58` is the byte of `':'`. -/
def create_canonical_message (msg_type : List Nat) (timestamp : Int)
    (nonce : List Nat) (payload : List Nat) : List Nat :=
  msg_type ++ [58] ++ intBytes timestamp ++ [58] ++ nonce ++ [58] ++ payload

/-- Model of `create_signature`: sign the canonical message with the private key. -/
def create_signature (private_key : SigningKey) (msg_type : List Nat)
    (timestamp : Int) (nonce : List Nat) (payload : List Nat) : Ed25519Sig :=
  ⟨private_key.seed, create_canonical_message msg_type timestamp nonce payload⟩

/-- Model of `verify_signature`: first the timestamp-age check (when
`check_timestamp`), then raw signature verification over the recomputed
canonical bytes.  `now` stands for `get_timestamp()` at verification time.
Returns `(is_valid, error_message)`. -/
def verify_signature (public_key : VerifyKey) (msg_type : List Nat)
    (timestamp : Int) (nonce : List Nat) (payload : List Nat)
    (signature : Ed25519Sig) (check_timestamp : Bool) (now : Int) :
    Bool × Option String :=
  if check_timestamp && decide ((now - timestamp).natAbs > MAX_MESSAGE_AGE) then
    (false, some ("Message expired (age: " ++ toString (now - timestamp).natAbs ++ "s)"))
  else if nacl_verify public_key (create_canonical_message msg_type timestamp nonce payload)
      signature then
    (true, none)
  else
    (false, some "Invalid signature")

/-- A signed envelope as built by `sign_message`:
`{type, payload, timestamp, nonce, signature}`.  `request_id` models the
extra correlation key that `_send_and_wait` attaches to the dict after
signing (`message["request_id"] = request_id`); it is absent (`none`) on a
freshly signed message. -/
structure SignedMessage where
  type : List Nat
  payload : List Nat
  timestamp : Int
  nonce : List Nat
  signature : Ed25519Sig
  request_id : Option (List Nat) := none
deriving DecidableEq, Repr

/-- Model of `sign_message`: build the signed envelope.  In the source, `timestamp`
is `get_timestamp()` and `nonce` is a fresh `uuid4` string; both are inputs
here. -/
def sign_message (private_key : SigningKey) (msg_type : List Nat)
    (timestamp : Int) (nonce : List Nat) (payload : List Nat) : SignedMessage :=
  { type := msg_type
    payload := payload
    timestamp := timestamp
    nonce := nonce
    signature := create_signature private_key msg_type timestamp nonce payload }

/-- Model of `verify_message`: extract the five envelope fields and verify.  No other
key of the message dict is read. -/
def verify_message (public_key : VerifyKey) (message : SignedMessage)
    (check_timestamp : Bool) (now : Int) : Bool × Option String :=
  verify_signature public_key message.type message.timestamp message.nonce
    message.payload message.signature check_timestamp now

/-- Model of `re_sign_message`: sign the original message's type and payload with the
new private key; a fresh timestamp and nonce (here `new_timestamp`,
`new_nonce`) are generated by the inner `sign_message`. -/
def re_sign_message (original_message : SignedMessage)
    (new_private_key : SigningKey) (new_timestamp : Int)
    (new_nonce : List Nat) : SignedMessage :=
  sign_message new_private_key original_message.type new_timestamp new_nonce
    original_message.payload

/-- Step of `_send_and_wait` that adds the correlation id to the already-signed message:
`message["request_id"] = request_id`. -/
def attach_request_id (message : SignedMessage) (rid : List Nat) : SignedMessage :=
  { message with request_id := some rid }

end Crypto

namespace ScriptExec

/-- States of `ScriptState`: script execution states. -/
inductive ScriptState where
  | pending
  | running
  | completed
  | cancelled
  | failed
deriving DecidableEq, Repr

/-- The terminal states: completed, failed, cancelled. -/
def ScriptState.isTerminal : ScriptState → Bool
  | .completed => true
  | .failed => true
  | .cancelled => true
  | _ => false

/-- Model of `RunningScript`: tracks a running script's state.  The OS process handle
is abstracted to its process-group id `pgid`; `temp_file` and `start_time`
play no part in the tracked-state behaviour and are omitted. -/
structure RunningScript where
  script_id : String
  pgid : Nat
  state : ScriptState := .running
  stdout_buffer : List String := []
  stderr_buffer : List String := []
  stdout_bytes : Nat := 0
  stderr_bytes : Nat := 0
  sequence : Nat := 0
deriving DecidableEq, Repr

/-- Model of `RunningScript.next_sequence`: return the current sequence number and
increment the counter. -/
def RunningScript.next_sequence (r : RunningScript) : Nat × RunningScript :=
  (r.sequence, { r with sequence := r.sequence + 1 })

/-- One output chunk delivered to the `on_output` callback:
`(script_id, stream, data, sequence)`. -/
structure Chunk where
  script_id : String
  stream : String
  data : String
  seq : Nat
deriving DecidableEq, Repr

/-- A line event read by one of the two `stream_output` readers.  asyncio is
single-threaded, so an execution is an interleaved sequence of whole-line
events across stdout and stderr. -/
inductive Event where
  | out (line : String)
  | err (line : String)
deriving DecidableEq, Repr

/-- One iteration of `stream_output` for one decoded line: draw the next
sequence number, append to the matching buffer, count the bytes, and emit the
chunk passed to `on_output`. -/
def stepLine (r : RunningScript) (e : Event) : RunningScript × Chunk :=
  match e with
  | .out line =>
      let (seq, r) := r.next_sequence
      ({ r with stdout_buffer := r.stdout_buffer ++ [line]
                stdout_bytes := r.stdout_bytes + line.length },
       ⟨r.script_id, "stdout", line, seq⟩)
  | .err line =>
      let (seq, r) := r.next_sequence
      ({ r with stderr_buffer := r.stderr_buffer ++ [line]
                stderr_bytes := r.stderr_bytes + line.length },
       ⟨r.script_id, "stderr", line, seq⟩)

/-- Process a list of line events, collecting the emitted chunks in order. -/
def runLines (r : RunningScript) : List Event → RunningScript × List Chunk
  | [] => (r, [])
  | e :: es =>
      let (r', c) := stepLine r e
      let (r'', cs) := runLines r' es
      (r'', c :: cs)

/-- The fresh `RunningScript` inserted into `running_scripts` when
`execute_script` starts a process (state defaults to `RUNNING`, counters to
zero). -/
def initScript (script_id : String) (pgid : Nat) : RunningScript :=
  { script_id := script_id, pgid := pgid }

/-- Signal numbers used by the executor. -/
def SIGTERM : Nat := 15

/-- SIGKILL, sent when the grace period expires. -/
def SIGKILL : Nat := 9

/-- The grace period (seconds) `_kill_process` waits after the first signal
(`asyncio.wait_for(process.wait(), timeout=5.0)`). -/
def KILL_GRACE : Nat := 5

/-- An observable action of `_kill_process`. -/
inductive KillAct where
  | signalGroup (sig : Nat) (pgid : Nat)
  | waitAtMost (seconds : Nat)
deriving DecidableEq, Repr

/-- Model of `_kill_process`: send `sig` to the process group, wait at most
`KILL_GRACE` seconds for the process to exit, and send SIGKILL to the group
if it is still alive after the grace period.  `exitsWithinGrace` records
whether `process.wait()` returned inside the grace window. -/
def _kill_process (pgid : Nat) (sig : Nat) (exitsWithinGrace : Bool) : List KillAct :=
  [.signalGroup sig pgid, .waitAtMost KILL_GRACE] ++
    (if exitsWithinGrace then [] else [.signalGroup SIGKILL pgid])

/-- How the `asyncio.wait_for(asyncio.gather(...), timeout=timeout)` block of
`execute_script` ends: either both stream readers finish (and
`process.wait()` yields the real return code) before the timeout, or the
timeout fires first (`exitsWithinGrace` then records whether the process died
within the kill grace period). -/
inductive DrainOutcome where
  | finished (returncode : Int)
  | timedOut (exitsWithinGrace : Bool)
deriving DecidableEq, Repr

/-- The observable outcome of the tail of `execute_script`: the result fields
`(returncode, error_message)`, the state written into the tracked
`RunningScript`, and the kill actions performed. -/
structure ExecOutcome where
  returncode : Int
  error_message : Option String
  stateWritten : ScriptState
  killActions : List KillAct
deriving DecidableEq, Repr

/-- The tail of `execute_script` after spawning: on normal drain the result
carries the process's real return code, no error message, and the state is
set to `COMPLETED`; on `asyncio.TimeoutError` the process group is killed via
`_kill_process`, the return code is the sentinel `-9`, the error message is
`"Script timed out after {timeout}s"`, and the state is set to `FAILED`. -/
def execute_outcome (timeout : Nat) (pgid : Nat) : DrainOutcome → ExecOutcome
  | .finished rc =>
      { returncode := rc, error_message := none
        stateWritten := .completed, killActions := [] }
  | .timedOut exitsWithinGrace =>
      { returncode := -9
        error_message := some ("Script timed out after " ++ toString timeout ++ "s")
        stateWritten := .failed
        killActions := _kill_process pgid SIGTERM exitsWithinGrace }

/-- The executor's `running_scripts` table, as an association list keyed by
script id (ids are unique: at most one live process per id). -/
def Table := List (String × RunningScript)

/-- Lookup `self.running_scripts.get(script_id)`. -/
def lookupScript (t : Table) (sid : String) : Option RunningScript :=
  match t with
  | [] => none
  | (k, r) :: rest => if k = sid then some r else lookupScript rest sid

/-- Write an updated record for `sid` (mutation of the tracked object). -/
def updateScript (t : Table) (sid : String) (f : RunningScript → RunningScript) : Table :=
  match t with
  | [] => []
  | (k, r) :: rest =>
      if k = sid then (k, f r) :: rest else (k, r) :: updateScript rest sid f

/-- Removal `self.running_scripts.pop(script_id, None)` in the `finally` block. -/
def popScript (t : Table) (sid : String) : Table :=
  match t with
  | [] => []
  | (k, r) :: rest => if k = sid then rest else (k, r) :: popScript rest sid

/-- Model of `cancel_script`: if the id is untracked or the script is not in the
`RUNNING` state, return `(False, "", "")` and change nothing; otherwise set
the state to `CANCELLED`, kill the process group, and return `True` with the
joined stdout and stderr buffers. -/
def cancel_script (t : Table) (sid : String) : (Bool × String × String) × Table :=
  match lookupScript t sid with
  | none => ((false, "", ""), t)
  | some r =>
      if r.state = .running then
        ((true, String.join r.stdout_buffer, String.join r.stderr_buffer),
         updateScript t sid (fun r => { r with state := .cancelled }))
      else
        ((false, "", ""), t)

/-- The state-affecting steps of the executor, at the granularity of the
source: `start` is the insertion of the fresh `RunningScript`; `emit` is one
`stream_output` line; `finishDrain` is the normal-completion branch
(`running.state = ScriptState.COMPLETED`, unconditional); `timeoutFire` is
the `asyncio.TimeoutError` branch (`running.state = ScriptState.FAILED`);
`cancel` is `cancel_script`; `pop` is the `finally` cleanup. -/
inductive ExecAction where
  | start (sid : String) (pgid : Nat)
  | emit (sid : String) (e : Event)
  | finishDrain (sid : String)
  | timeoutFire (sid : String)
  | cancel (sid : String)
  | pop (sid : String)
deriving DecidableEq, Repr

/-- One step of the executor on its `running_scripts` table. -/
def execStep (t : Table) : ExecAction → Table
  | .start sid pgid => (sid, initScript sid pgid) :: t
  | .emit sid e => updateScript t sid (fun r => (stepLine r e).1)
  | .finishDrain sid => updateScript t sid (fun r => { r with state := .completed })
  | .timeoutFire sid => updateScript t sid (fun r => { r with state := .failed })
  | .cancel sid => (cancel_script t sid).2
  | .pop sid => popScript t sid

/-- Run a sequence of executor steps. -/
def execSteps (t : Table) : List ExecAction → Table
  | [] => t
  | a :: as => execSteps (execStep t a) as

/-- The tracked state of a script id, as observed through the table. -/
def stateOf (t : Table) (sid : String) : Option ScriptState :=
  (lookupScript t sid).map RunningScript.state

/-- A concrete running script with buffered output. -/
def exampleRunningS : RunningScript :=
  { script_id := "s", pgid := 1, stdout_buffer := ["a\n", "b\n"],
    stderr_buffer := ["e\n"] }

/-- A concrete script already in a terminal state. -/
def exampleRunningT : RunningScript :=
  { script_id := "t", pgid := 2, state := .completed }

/-- A concrete `running_scripts` table holding one running and one completed
script. -/
def exampleTable : Table := [("s", exampleRunningS), ("t", exampleRunningT)]

end ScriptExec

namespace Subagent

/-- Status enumeration `ExecutionStatus` of the client-side executor (`script_types.py`). -/
inductive ExecutionStatus where
  | pending
  | running
  | completed
  | cancelled
  | failed
deriving DecidableEq, Repr

/-- Python's `\s` character class (the whitespace accepted by the
`[Step\s+(\d+)/(\d+)]` pattern). -/
def isPySpace (c : Char) : Bool :=
  c = ' ' || c = '\t' || c = '\n' || c = '\r' || c = '\x0b' || c = '\x0c'

/-- ASCII digit test for `\d`. -/
def isAsciiDigit (c : Char) : Bool :=
  '0' ≤ c && c ≤ '9'

/-- Value of a digit string, as computed by Python's `int()`. -/
def digitsToNat (ds : List Char) : Nat :=
  ds.foldl (fun a c => a * 10 + (c.toNat - 48)) 0

/-- Greedy `\d+` at the head of the input: the (non-empty) run of leading
digits and the rest. -/
def takeDigits : List Char → List Char × List Char
  | [] => ([], [])
  | c :: cs =>
      if isAsciiDigit c then
        let (ds, rest) := takeDigits cs
        (c :: ds, rest)
      else ([], c :: cs)

/-- Greedy `\s+` at the head of the input. -/
def takeSpaces : List Char → List Char × List Char
  | [] => ([], [])
  | c :: cs =>
      if isPySpace c then
        let (ss, rest) := takeSpaces cs
        (c :: ss, rest)
      else ([], c :: cs)

/-- Try to match `\[Step\s+(\d+)/(\d+)\]` anchored at the head of the input,
returning the two captured numbers. -/
def matchStepAt (cs : List Char) : Option (Nat × Nat) :=
  match cs with
  | '[' :: 'S' :: 't' :: 'e' :: 'p' :: rest =>
      let (spaces, rest) := takeSpaces rest
      if spaces.isEmpty then none
      else
        let (d1, rest) := takeDigits rest
        if d1.isEmpty then none
        else
          match rest with
          | '/' :: rest =>
              let (d2, rest) := takeDigits rest
              if d2.isEmpty then none
              else
                match rest with
                | ']' :: _ => some (digitsToNat d1, digitsToNat d2)
                | _ => none
          | _ => none
  | _ => none

/-- Model of `re.search(r'\[Step\s+(\d+)/(\d+)\]', data)`: the leftmost match of the
step-marker pattern anywhere in the line, if any. -/
def findStepMarker : List Char → Option (Nat × Nat)
  | [] => none
  | c :: cs =>
      match matchStepAt (c :: cs) with
      | some r => some r
      | none => findStepMarker cs

/-- Record `RunningScript` of the client-side executor: the fields that the
streaming loop and `get_progress` touch.  `total_steps` is fixed at start
(`total_steps=len(script.steps)` via `process`, default `0` for a direct
`execute_script` call). -/
structure SubScript where
  script_id : String
  status : ExecutionStatus := .running
  stdout_buffer : List String := []
  stderr_buffer : List String := []
  steps_completed : Nat := 0
  total_steps : Nat := 0
deriving DecidableEq, Repr

/-- The fresh tracked record inserted by `execute_script`. -/
def initSub (script_id : String) (total_steps : Nat) : SubScript :=
  { script_id := script_id, total_steps := total_steps }

/-- One iteration of the client-side `stream_output` for one decoded line:
append to the buffer of its stream, and if the line matches the step
marker, set `steps_completed` to the first captured number.  (The second
captured number — the `M` of `[Step N/M]` — is not read.) -/
def processLine (r : SubScript) (stream : String) (line : String) : SubScript :=
  let r :=
    if stream = "stdout" then { r with stdout_buffer := r.stdout_buffer ++ [line] }
    else { r with stderr_buffer := r.stderr_buffer ++ [line] }
  match findStepMarker line.toList with
  | some (n, _) => { r with steps_completed := n }
  | none => r

/-- Process a list of `(stream, line)` events in order. -/
def processLines (r : SubScript) : List (String × String) → SubScript
  | [] => r
  | (s, l) :: rest => processLines (processLine r s l) rest

/-- The client-side executor's `running_scripts` table. -/
def SubTable := List (String × SubScript)

/-- Lookup `self.running_scripts.get(script_id)`. -/
def lookupSub (t : SubTable) (sid : String) : Option SubScript :=
  match t with
  | [] => none
  | (k, r) :: rest => if k = sid then some r else lookupSub rest sid

/-- Model of `get_progress`: `(steps_completed, total_steps)` for a tracked script,
`None` if not found. -/
def get_progress (t : SubTable) (sid : String) : Option (Nat × Nat) :=
  (lookupSub t sid).map fun r => (r.steps_completed, r.total_steps)

end Subagent

namespace Conn

/-- The correlation id generated by `_send_and_wait`:
`f"req_{self._request_id_counter}"` after incrementing the counter.  The
counter increases monotonically, so a pending request's counter value orders
its creation time. -/
def requestId (n : Nat) : String := "req_" ++ toString n

/-- Python's `<` on strings: lexicographic comparison of the two character
sequences by code point. -/
def charsLt : List Char → List Char → Bool
  | [], [] => false
  | [], _ :: _ => true
  | _ :: _, [] => false
  | c :: cs, d :: ds =>
      if c < d then true else if d < c then false else charsLt cs ds

/-- Python's `<` on `str` values. -/
def pyStrLt (a b : String) : Bool :=
  charsLt a.toList b.toList

/-- Python's `min()` over an iterable of strings (by `<`), `None` on an
empty iterable. -/
def pyMinString : List String → Option String
  | [] => none
  | x :: xs => some (xs.foldl (fun a b => if pyStrLt b a then b else a) x)

/-- The receive loop's backward-compatibility fallback for an inbound message
with no usable `request_id` that is not a push message:
`oldest_id = min(self._pending_requests.keys())` — the resolved pending id.
`pending` is the set of outstanding counter values. -/
def fallbackResolved (pending : List Nat) : Option String :=
  pyMinString (pending.map requestId)

/-- The id of the oldest (earliest-created) pending request: the one with the
smallest counter value. -/
def oldestPendingId (pending : List Nat) : Option String :=
  match pending with
  | [] => none
  | x :: xs => some (requestId (xs.foldl min x))

end Conn

/-! ## Theorems -/

/-- The canonical message determines the payload bytes (given the other
fields): the payload is the unambiguous suffix after the fixed prefix. -/
theorem canonical_payload_inj {t n p p' : List Nat} {ts : Int}
    (h : Crypto.create_canonical_message t ts n p
       = Crypto.create_canonical_message t ts n p') : p = p' := by
  simp only [Crypto.create_canonical_message, List.append_right_inj,
    List.singleton_append, List.cons.injEq, true_and] at h
  exact h

/-- C1: For every private key, message type and serialized payload,
verifying the envelope produced by `sign_message` with the corresponding
public key returns `(true, none)`; and changing any single byte of the
payload before verification makes `verify_message` return `(false, some
error)` — concretely the `"Invalid signature"` error. -/
theorem C1_sign_verify_roundtrip_and_byte_flip
    (k : Crypto.SigningKey) (t nonce payload : List Nat) (ts : Int)
    (i : Nat) (b : Nat) (hi : i < payload.length) (hb : b ≠ payload[i]) :
    Crypto.verify_message k.verify_key
        (Crypto.sign_message k t ts nonce payload) true ts = (true, none) ∧
    Crypto.verify_message k.verify_key
        { Crypto.sign_message k t ts nonce payload with payload := payload.set i b }
        true ts = (false, some "Invalid signature") := by
  constructor
  · simp [Crypto.verify_message, Crypto.verify_signature, Crypto.sign_message,
      Crypto.create_signature, Crypto.nacl_verify, Crypto.SigningKey.verify_key,
      Crypto.MAX_MESSAGE_AGE]
  · have hset : payload.set i b ≠ payload := by
      intro h
      apply hb
      have hgot : (payload.set i b)[i]? = some b := by
        rw [List.getElem?_set_self (by simpa using hi)]
      rw [h, List.getElem?_eq_getElem hi] at hgot
      exact (Option.some.inj hgot).symm
    have hc : Crypto.create_canonical_message t ts nonce payload
        ≠ Crypto.create_canonical_message t ts nonce (payload.set i b) :=
      fun h => hset (canonical_payload_inj h).symm
    simp [Crypto.verify_message, Crypto.verify_signature, Crypto.sign_message,
      Crypto.create_signature, Crypto.nacl_verify, Crypto.SigningKey.verify_key,
      Crypto.MAX_MESSAGE_AGE, hc]

/-- Witness for C1 at a concrete keypair, envelope and byte flip. -/
theorem C1_witness :
    Crypto.verify_message (Crypto.SigningKey.verify_key ⟨5⟩)
        (Crypto.sign_message ⟨5⟩ [99] 1000 [7] [1, 2, 3]) true 1000 = (true, none) ∧
    Crypto.verify_message (Crypto.SigningKey.verify_key ⟨5⟩)
        { Crypto.sign_message ⟨5⟩ [99] 1000 [7] [1, 2, 3] with payload := [1, 2, 3].set 1 9 }
        true 1000 = (false, some "Invalid signature") :=
  C1_sign_verify_roundtrip_and_byte_flip ⟨5⟩ [99] [7] [1, 2, 3] 1000 1 9
    (by decide) (by decide)

/-- C2: Re-signing an envelope signed by hop A with hop B's private key
keeps the type and payload, carries the freshly generated timestamp and
nonce, verifies against B's public key, and fails against A's public key. -/
theorem C2_re_sign_chain_of_trust
    (kA kB : Crypto.SigningKey) (hAB : kA ≠ kB) (t nA nB payload : List Nat)
    (tsA tsB : Int) :
    (Crypto.re_sign_message (Crypto.sign_message kA t tsA nA payload) kB tsB nB).type
      = (Crypto.sign_message kA t tsA nA payload).type ∧
    (Crypto.re_sign_message (Crypto.sign_message kA t tsA nA payload) kB tsB nB).payload
      = (Crypto.sign_message kA t tsA nA payload).payload ∧
    (Crypto.re_sign_message (Crypto.sign_message kA t tsA nA payload) kB tsB nB).timestamp
      = tsB ∧
    (Crypto.re_sign_message (Crypto.sign_message kA t tsA nA payload) kB tsB nB).nonce
      = nB ∧
    Crypto.verify_message kB.verify_key
        (Crypto.re_sign_message (Crypto.sign_message kA t tsA nA payload) kB tsB nB)
        true tsB = (true, none) ∧
    Crypto.verify_message kA.verify_key
        (Crypto.re_sign_message (Crypto.sign_message kA t tsA nA payload) kB tsB nB)
        true tsB = (false, some "Invalid signature") := by
  have hseed : kB.seed ≠ kA.seed := by
    intro h
    exact hAB (by cases kA; cases kB; cases h; rfl)
  refine ⟨rfl, rfl, rfl, rfl, ?_, ?_⟩
  · simp [Crypto.verify_message, Crypto.verify_signature, Crypto.re_sign_message,
      Crypto.sign_message, Crypto.create_signature, Crypto.nacl_verify,
      Crypto.SigningKey.verify_key, Crypto.MAX_MESSAGE_AGE]
  · simp [Crypto.verify_message, Crypto.verify_signature, Crypto.re_sign_message,
      Crypto.sign_message, Crypto.create_signature, Crypto.nacl_verify,
      Crypto.SigningKey.verify_key, Crypto.MAX_MESSAGE_AGE, hseed]

/-- Witness for C2 at two concrete distinct keypairs. -/
theorem C2_witness :
    Crypto.verify_message (Crypto.SigningKey.verify_key ⟨2⟩)
        (Crypto.re_sign_message (Crypto.sign_message ⟨1⟩ [99] 10 [7] [1, 2]) ⟨2⟩ 20 [8])
        true 20 = (true, none) ∧
    Crypto.verify_message (Crypto.SigningKey.verify_key ⟨1⟩)
        (Crypto.re_sign_message (Crypto.sign_message ⟨1⟩ [99] 10 [7] [1, 2]) ⟨2⟩ 20 [8])
        true 20 = (false, some "Invalid signature") :=
  ⟨(C2_re_sign_chain_of_trust ⟨1⟩ ⟨2⟩ (by decide) [99] [7] [8] [1, 2] 10 20).2.2.2.2.1,
   (C2_re_sign_chain_of_trust ⟨1⟩ ⟨2⟩ (by decide) [99] [7] [8] [1, 2] 10 20).2.2.2.2.2⟩

/-- C9: An envelope whose timestamp differs from the verification-time
clock by more than the 300-second window fails verification with the
"Message expired" error, whatever its signature is. -/
theorem C9_expired_regardless_of_signature
    (pk : Crypto.VerifyKey) (m : Crypto.SignedMessage) (now : Int)
    (h : (now - m.timestamp).natAbs > Crypto.MAX_MESSAGE_AGE) :
    Crypto.verify_message pk m true now
      = (false, some ("Message expired (age: "
          ++ toString (now - m.timestamp).natAbs ++ "s)")) := by
  simp [Crypto.verify_message, Crypto.verify_signature, h]

/-- Witness for C9: a message signed at time 0 — with a signature that is
valid over its canonical bytes — is rejected as expired at time 1000. -/
theorem C9_witness :
    ((1000 : Int) - (Crypto.sign_message ⟨5⟩ [99] 0 [7] [1]).timestamp).natAbs
        > Crypto.MAX_MESSAGE_AGE ∧
    Crypto.verify_message (Crypto.SigningKey.verify_key ⟨5⟩)
        (Crypto.sign_message ⟨5⟩ [99] 0 [7] [1]) true 1000
      = (false, some ("Message expired (age: "
          ++ toString ((1000 : Int)
              - (Crypto.sign_message ⟨5⟩ [99] 0 [7] [1]).timestamp).natAbs ++ "s)")) :=
  ⟨by decide, C9_expired_regardless_of_signature _ _ _ (by decide)⟩

/-- C10: Signature verification reads only the five envelope fields:
attaching, removing or rewriting the `request_id` correlation key (as
`_send_and_wait` does after signing) leaves the result of `verify_message`
unchanged. -/
theorem C10_verify_ignores_request_id
    (pk : Crypto.VerifyKey) (m : Crypto.SignedMessage) (rid : List Nat)
    (rid' : Option (List Nat)) (check : Bool) (now : Int) :
    Crypto.verify_message pk (Crypto.attach_request_id m rid) check now
      = Crypto.verify_message pk m check now ∧
    Crypto.verify_message pk { m with request_id := rid' } check now
      = Crypto.verify_message pk m check now :=
  ⟨rfl, rfl⟩

/-- One `stream_output` iteration: the chunk is stamped with the script's id
and the pre-increment counter value, the counter advances by exactly one, and
the script id is never changed. -/
theorem stepLine_spec (r : ScriptExec.RunningScript) (e : ScriptExec.Event) :
    (ScriptExec.stepLine r e).1.script_id = r.script_id ∧
    (ScriptExec.stepLine r e).2.script_id = r.script_id ∧
    (ScriptExec.stepLine r e).1.sequence = r.sequence + 1 ∧
    (ScriptExec.stepLine r e).2.seq = r.sequence := by
  cases e <;>
    simp [ScriptExec.stepLine, ScriptExec.RunningScript.next_sequence]

/-- The chunks emitted over a run carry the consecutive sequence numbers
starting at the script's current counter. -/
theorem runLines_map_seq (es : List ScriptExec.Event) :
    ∀ r : ScriptExec.RunningScript,
      (ScriptExec.runLines r es).2.map ScriptExec.Chunk.seq
        = List.range' r.sequence es.length := by
  induction es with
  | nil => intro r; rfl
  | cons e es ih =>
      intro r
      have h := stepLine_spec r e
      simp only [ScriptExec.runLines, List.map_cons, List.length_cons,
        List.range'_succ, h.2.2.2, ih (ScriptExec.stepLine r e).1, h.2.2.1]

/-- Every chunk emitted over a run carries the script's id. -/
theorem runLines_script_id (es : List ScriptExec.Event) :
    ∀ r : ScriptExec.RunningScript,
      ∀ c ∈ (ScriptExec.runLines r es).2, c.script_id = r.script_id := by
  induction es with
  | nil => intro r c hc; cases hc
  | cons e es ih =>
      intro r c hc
      have h := stepLine_spec r e
      simp only [ScriptExec.runLines, List.mem_cons] at hc
      rcases hc with hc | hc
      · rw [hc]; exact h.2.1
      · exact (ih (ScriptExec.stepLine r e).1 c hc).trans h.1

/-- C4: During a script execution the emitted chunks (across stdout and
stderr) carry sequence numbers `0, 1, 2, ...` in emission order — so each is
one greater than the previous and none is reused — every chunk carries the
script's own id, and runs of two scripts with distinct ids share no chunk. -/
theorem C4_sequence_numbers_and_isolation
    (sidA sidB : String) (pA pB : Nat)
    (esA esB : List ScriptExec.Event) (hne : sidA ≠ sidB) :
    (ScriptExec.runLines (ScriptExec.initScript sidA pA) esA).2.map ScriptExec.Chunk.seq
      = List.range esA.length ∧
    (∀ c ∈ (ScriptExec.runLines (ScriptExec.initScript sidA pA) esA).2,
      c.script_id = sidA) ∧
    (∀ c ∈ (ScriptExec.runLines (ScriptExec.initScript sidA pA) esA).2,
      c ∉ (ScriptExec.runLines (ScriptExec.initScript sidB pB) esB).2) := by
  refine ⟨?_, ?_, ?_⟩
  · rw [runLines_map_seq esA (ScriptExec.initScript sidA pA),
      List.range_eq_range' esA.length]
    rfl
  · exact runLines_script_id esA (ScriptExec.initScript sidA pA)
  · intro c hcA hcB
    have hA := runLines_script_id esA (ScriptExec.initScript sidA pA) c hcA
    have hB := runLines_script_id esB (ScriptExec.initScript sidB pB) c hcB
    exact hne (hA.symm.trans hB)

/-- Witness for C4 at two concrete scripts with distinct ids. -/
theorem C4_witness :
    (ScriptExec.runLines (ScriptExec.initScript "A" 1)
        [.out "x\n", .err "y\n"]).2.map ScriptExec.Chunk.seq = List.range 2 ∧
    (⟨"A", "stdout", "x\n", 0⟩ : ScriptExec.Chunk)
      ∉ (ScriptExec.runLines (ScriptExec.initScript "B" 2) [.out "x\n"]).2 :=
  ⟨(C4_sequence_numbers_and_isolation "A" "B" 1 2 [.out "x\n", .err "y\n"] [.out "x\n"]
      (by decide)).1,
   (C4_sequence_numbers_and_isolation "A" "B" 1 2 [.out "x\n", .err "y\n"] [.out "x\n"]
      (by decide)).2.2 ⟨"A", "stdout", "x\n", 0⟩ (by simp [ScriptExec.runLines,
        ScriptExec.stepLine, ScriptExec.RunningScript.next_sequence,
        ScriptExec.initScript])⟩

/-- C5: When the timeout elapses before the streams are drained, the
engine signals the process group with SIGTERM, waits the bounded
`KILL_GRACE` period, signals SIGKILL if the process is still alive, and the
result is the sentinel return code `-9` with a non-empty timeout error
message and the `FAILED` state; on a normal drain the result carries the
process's real return code and no error message. -/
theorem C5_timeout_kill_sequence_and_result
    (timeout pgid : Nat) (rc : Int) (exitsWithinGrace : Bool) :
    (ScriptExec.execute_outcome timeout pgid (.timedOut exitsWithinGrace)).returncode
      = -9 ∧
    (ScriptExec.execute_outcome timeout pgid (.timedOut exitsWithinGrace)).stateWritten
      = .failed ∧
    (ScriptExec.execute_outcome timeout pgid (.timedOut exitsWithinGrace)).killActions
      = [.signalGroup ScriptExec.SIGTERM pgid, .waitAtMost ScriptExec.KILL_GRACE]
        ++ (if exitsWithinGrace then [] else [.signalGroup ScriptExec.SIGKILL pgid]) ∧
    (∃ msg, (ScriptExec.execute_outcome timeout pgid
        (.timedOut exitsWithinGrace)).error_message = some msg ∧ msg ≠ "") ∧
    (ScriptExec.execute_outcome timeout pgid (.finished rc)).returncode = rc ∧
    (ScriptExec.execute_outcome timeout pgid (.finished rc)).error_message = none := by
  refine ⟨rfl, rfl, rfl, ⟨"Script timed out after " ++ toString timeout ++ "s",
    rfl, ?_⟩, rfl, rfl⟩
  intro h
  have h2 := congrArg String.length h
  simp [String.length_append] at h2
  exact absurd h2.2 (by decide)

/-- C3, evaluated at the failing input.  Cancelling a tracked running
script sets its state to the terminal `CANCELLED`; but when the killed
process's streams then drain and `execute_script`'s normal-completion branch
runs (`running.state = ScriptState.COMPLETED`, unconditional), the state is
overwritten to `COMPLETED` — a transition out of a terminal state, which the
claim says cannot happen. -/
theorem C3_cancelled_state_overwritten_to_completed :
    ScriptExec.stateOf (ScriptExec.execSteps [] [.start "s" 1, .cancel "s"]) "s"
      = some .cancelled ∧
    ScriptExec.ScriptState.isTerminal .cancelled = true ∧
    ScriptExec.stateOf
        (ScriptExec.execSteps [] [.start "s" 1, .cancel "s", .finishDrain "s"]) "s"
      = some .completed :=
  ⟨rfl, rfl, rfl⟩

/-- C6: `cancel_script` returns `was_running = true` with the joined
stdout and stderr buffers when the id names a tracked script in the
`RUNNING` state, and `(false, "", "")` — without raising — when the id is
unknown or the tracked script is already in a terminal state. -/
theorem C6_cancel_result_semantics (t : ScriptExec.Table) (sid : String) :
    (∀ r, ScriptExec.lookupScript t sid = some r → r.state = .running →
      (ScriptExec.cancel_script t sid).1
        = (true, String.join r.stdout_buffer, String.join r.stderr_buffer)) ∧
    (ScriptExec.lookupScript t sid = none →
      (ScriptExec.cancel_script t sid).1 = (false, "", "")) ∧
    (∀ r, ScriptExec.lookupScript t sid = some r → r.state.isTerminal = true →
      (ScriptExec.cancel_script t sid).1 = (false, "", "")) := by
  refine ⟨?_, ?_, ?_⟩
  · intro r hr hrun
    simp [ScriptExec.cancel_script, hr, hrun]
  · intro h
    simp [ScriptExec.cancel_script, h]
  · intro r hr hterm
    have hns : ¬ r.state = .running := by
      cases hstate : r.state <;> simp_all [ScriptExec.ScriptState.isTerminal]
    simp [ScriptExec.cancel_script, hr, hns]

/-- Witness for C6 on a concrete table: a running script with buffered
output, an unknown id, and a script already in a terminal state. -/
theorem C6_witness :
    (ScriptExec.cancel_script ScriptExec.exampleTable "s").1
      = (true, String.join ["a\n", "b\n"], String.join ["e\n"]) ∧
    (ScriptExec.cancel_script ScriptExec.exampleTable "u").1 = (false, "", "") ∧
    (ScriptExec.cancel_script ScriptExec.exampleTable "t").1 = (false, "", "") :=
  ⟨(C6_cancel_result_semantics ScriptExec.exampleTable "s").1
      ScriptExec.exampleRunningS rfl rfl,
   (C6_cancel_result_semantics ScriptExec.exampleTable "u").2.1 rfl,
   (C6_cancel_result_semantics ScriptExec.exampleTable "t").2.2
      ScriptExec.exampleRunningT rfl rfl⟩

/-- C7, evaluated at the failing input.  The receive loop's no-id
fallback takes `min()` over the pending id *strings* `"req_N"`, which is
lexicographic: with requests 2 and 10 outstanding it resolves `"req_10"`,
not the earliest-created `"req_2"`. -/
theorem C7_fallback_resolves_lexicographic_not_oldest :
    Conn.fallbackResolved [2, 10] = some (Conn.requestId 10) ∧
    Conn.oldestPendingId [2, 10] = some (Conn.requestId 2) ∧
    Conn.fallbackResolved [2, 10] ≠ Conn.oldestPendingId [2, 10] :=
  ⟨rfl, rfl, by decide⟩

/-- C8, counterexample.  A line matching the step marker is parsed with
both numbers captured — here `[Step 1/2]` gives `(1, 2)` — but only
`steps_completed` is written: for a script started with the default
`total_steps = 0`, the progress query returns `(1, 0)` after the line, not
the `(1, 2)` the claim requires. -/
theorem C8_counterexample_total_steps_not_updated :
    Subagent.findStepMarker "[Step 1/2]\n".toList = some (1, 2) ∧
    Subagent.get_progress
        [("s", Subagent.processLine (Subagent.initSub "s" 0) "stdout" "[Step 1/2]\n")] "s"
      = some (1, 0) ∧
    Subagent.get_progress
        [("s", Subagent.processLine (Subagent.initSub "s" 0) "stdout" "[Step 1/2]\n")] "s"
      ≠ some (1, 2) :=
  ⟨rfl, rfl, by decide⟩

/-- C8, amended.  A line matching `[Step N/M]` sets `steps_completed`
to `N` and leaves `total_steps` at the value fixed when execution started;
a script printing `[Step 1/2]` then `[Step 2/2]`, started with the default
`total_steps = 0`, drives the progress query `(0,0) → (1,0) → (2,0)`. -/
theorem C8_amended_marker_updates_steps_completed_only
    (r : Subagent.SubScript) (stream line : String) (n m : Nat)
    (h : Subagent.findStepMarker line.toList = some (n, m)) :
    ((Subagent.processLine r stream line).steps_completed = n ∧
     (Subagent.processLine r stream line).total_steps = r.total_steps) ∧
    Subagent.get_progress [("s", Subagent.initSub "s" 0)] "s" = some (0, 0) ∧
    Subagent.get_progress
        [("s", Subagent.processLines (Subagent.initSub "s" 0)
            [("stdout", "[Step 1/2]\n")])] "s" = some (1, 0) ∧
    Subagent.get_progress
        [("s", Subagent.processLines (Subagent.initSub "s" 0)
            [("stdout", "[Step 1/2]\n"), ("stdout", "[Step 2/2]\n")])] "s"
      = some (2, 0) := by
  refine ⟨⟨?_, ?_⟩, rfl, rfl, rfl⟩
  · simp only [Subagent.processLine, h]
  · simp only [Subagent.processLine, h]
    split <;> rfl

/-- Witness for the amended C8 at a concrete marker line. -/
theorem C8_amended_witness :
    (Subagent.processLine (Subagent.initSub "s" 0) "stdout" "[Step 1/2]\n").steps_completed
      = 1 ∧
    (Subagent.processLine (Subagent.initSub "s" 0) "stdout" "[Step 1/2]\n").total_steps
      = (Subagent.initSub "s" 0).total_steps :=
  ⟨(C8_amended_marker_updates_steps_completed_only
      (Subagent.initSub "s" 0) "stdout" "[Step 1/2]\n" 1 2 rfl).1.1,
   (C8_amended_marker_updates_steps_completed_only
      (Subagent.initSub "s" 0) "stdout" "[Step 1/2]\n" 1 2 rfl).1.2⟩
